import Mathlib

/-!
Verification of the ChromaDB retriever component
(src/src/utils/db/chroma_retriever.py, class ChromaDBRetriever).

The Python class is shallowly embedded here:
* backend-reported distances and similarity thresholds are rationals (ℚ);
* the backend query is a value of type Except String QueryResult: an
  Except.error models a backend client that raises, an Except.ok models a
  backend response (possibly malformed: ragged or empty parallel arrays);
* the body of retrieve, which in Python can raise IndexError on a
  malformed response, is an Except String computation (formatResults)
  whose error branch models the exception caught by the blanket handler;
* retrieve returns the result list paired with the number of backend
  calls issued (0 on the empty-query short circuit, 1 otherwise);
* Python round(x, 4) is round-half-even at 4 decimal digits (round4);
* the Python guard "not text or not text.strip()" holds exactly when every
  character of the string is whitespace (it is modelled that way because
  Lean's String.trim does not reduce in the kernel);
* list.sort(key=..., reverse=True) is a stable descending sort, modelled
  by insertion sort (insertDesc / sortDesc).
-/

/-- Python metadata dict, an opaque string-to-string mapping. -/
def Metadata : Type := List (String × String)

instance : DecidableEq Metadata := by
  unfold Metadata
  infer_instance

/-- A result dict built by ChromaDBRetriever.retrieve:
content, metadata and (rounded) similarity score. -/
structure RetrievedDocument where
  content : String
  metadata : Metadata
  similarity_score : ℚ
deriving DecidableEq

/-- The parallel-array response of collection.query: documents, metadatas
and distances, one inner list per query text (the code always sends one
query text, so only index 0 is read). -/
structure QueryResult where
  documents : List (List String)
  metadatas : List (List Metadata)
  distances : List (List ℚ)

/-- ChromaDBRetrieverOptions from the source, with the same defaults
(n_results = 5, similarity_threshold = 0.7). -/
structure ChromaDBRetrieverOptions where
  persist_directory : String
  collection_name : String
  n_results : Int := 5
  similarity_threshold : ℚ := 7/10

/-- Round-half-even to an integer, the rounding Python's round uses. -/
def roundHalfEven (q : ℚ) : ℤ :=
  if q - ⌊q⌋ < 1/2 then ⌊q⌋
  else if 1/2 < q - ⌊q⌋ then ⌊q⌋ + 1
  else if ⌊q⌋ % 2 = 0 then ⌊q⌋ else ⌊q⌋ + 1

/-- Python round(x, 4): round-half-even at 4 decimal digits. -/
def round4 (q : ℚ) : ℚ := (roundHalfEven (q * 10000) : ℚ) / 10000

lemma le_roundHalfEven (q : ℚ) (n : ℤ) (h : (n : ℚ) ≤ q) : n ≤ roundHalfEven q := by
  have hf : n ≤ ⌊q⌋ := Int.le_floor.mpr h
  unfold roundHalfEven
  split
  · exact hf
  · split
    · omega
    · split <;> omega

lemma roundHalfEven_le (q : ℚ) (n : ℤ) (h : q ≤ (n : ℚ)) : roundHalfEven q ≤ n := by
  have hf : ⌊q⌋ ≤ n := by simpa using Int.floor_mono h
  unfold roundHalfEven
  by_cases h1 : q - ⌊q⌋ < 1/2
  · rw [if_pos h1]
    exact hf
  · rw [if_neg h1]
    have h1' : 1/2 ≤ q - ⌊q⌋ := not_lt.mp h1
    have hq : (⌊q⌋ : ℚ) < q := by linarith
    have hfn : ⌊q⌋ < n := by
      have hc : (⌊q⌋ : ℚ) < (n : ℚ) := lt_of_lt_of_le hq h
      exact_mod_cast hc
    by_cases h2 : 1/2 < q - ⌊q⌋
    · rw [if_pos h2]
      omega
    · rw [if_neg h2]
      split <;> omega

lemma roundHalfEven_sub_abs (q : ℚ) : |(roundHalfEven q : ℚ) - q| ≤ 1/2 := by
  have hfl : (⌊q⌋ : ℚ) ≤ q := Int.floor_le q
  have hfu : q < ⌊q⌋ + 1 := Int.lt_floor_add_one q
  unfold roundHalfEven
  by_cases h1 : q - ⌊q⌋ < 1/2
  · rw [if_pos h1, abs_le]
    constructor <;> linarith
  · rw [if_neg h1]
    have h1' : 1/2 ≤ q - ⌊q⌋ := not_lt.mp h1
    by_cases h2 : 1/2 < q - ⌊q⌋
    · rw [if_pos h2, abs_le]
      constructor <;> push_cast <;> linarith
    · rw [if_neg h2]
      have h2' : q - ⌊q⌋ = 1/2 := le_antisymm (not_lt.mp h2) h1'
      split <;> (rw [abs_le]; constructor <;> push_cast <;> linarith)

lemma round4_sub_abs (q : ℚ) : |round4 q - q| ≤ 5/100000 := by
  have h := roundHalfEven_sub_abs (q * 10000)
  have he : round4 q - q = ((roundHalfEven (q * 10000) : ℚ) - q * 10000) / 10000 := by
    unfold round4
    ring
  rw [he, abs_div, abs_of_pos (by norm_num : (0:ℚ) < 10000)]
  rw [div_le_iff₀ (by norm_num : (0:ℚ) < 10000)]
  linarith

lemma round4_nonneg (q : ℚ) (h : 0 ≤ q) : 0 ≤ round4 q := by
  unfold round4
  apply div_nonneg _ (by norm_num)
  have hz : (0 : ℤ) ≤ roundHalfEven (q * 10000) := by
    apply le_roundHalfEven
    exact_mod_cast mul_nonneg h (by norm_num)
  exact_mod_cast hz

lemma round4_le_one (q : ℚ) (h : q ≤ 1) : round4 q ≤ 1 := by
  unfold round4
  rw [div_le_one (by norm_num : (0:ℚ) < 10000)]
  have hz : roundHalfEven (q * 10000) ≤ (10000 : ℤ) := by
    apply roundHalfEven_le
    push_cast
    linarith
  exact_mod_cast hz

/-- One iteration of the loop in retrieve, at index i of the first result
row.  Mirrors the Python accesses in order: results['distances'][0][i]
(both indexings can raise IndexError), the threshold test on the unrounded
similarity, and, only for a passing hit,
results['metadatas'][0][i] if results['metadatas'][0] else {}. -/
def hitAt (t : ℚ) (res : QueryResult) (docs0 : List String) (i : Nat) :
    Except String (Option RetrievedDocument) :=
  match res.distances.head? with
  | none => .error "IndexError: distances"
  | some dists0 =>
    match dists0.get? i with
    | none => .error "IndexError: distance"
    | some d =>
      let sim : ℚ := 1 - min d 1
      if t ≤ sim then
        match res.metadatas.head? with
        | none => .error "IndexError: metadatas"
        | some metas0 =>
          match (if metas0.isEmpty then some ([] : Metadata) else metas0.get? i) with
          | none => .error "IndexError: metadata"
          | some m =>
            .ok (some { content := docs0.getD i "",
                        metadata := m,
                        similarity_score := round4 sim })
      else .ok none

/-- The loop "for i in range(len(results['documents'][0]))" of retrieve,
run over a list of indices: stops at the first raising iteration,
appends passing hits in order. -/
def runLoop (t : ℚ) (res : QueryResult) (docs0 : List String) :
    List Nat → Except String (List RetrievedDocument)
  | [] => .ok []
  | i :: is =>
    match hitAt t res docs0 i with
    | .error e => .error e
    | .ok r =>
      match runLoop t res docs0 is with
      | .error e => .error e
      | .ok rest =>
        .ok (match r with
             | some doc => doc :: rest
             | none => rest)

/-- The body of retrieve after the backend call: the emptiness check on
results['documents'] and the formatting loop.  An error models a Python
exception reaching the blanket handler of retrieve. -/
def formatResults (t : ℚ) (res : QueryResult) :
    Except String (List RetrievedDocument) :=
  match res.documents.head? with
  | none => .ok []
  | some docs0 =>
    if docs0.isEmpty then .ok []
    else runLoop t res docs0 (List.range docs0.length)

/-- ChromaDBRetriever.retrieve.  The pair's second component counts
backend calls: 0 when the empty/whitespace guard short-circuits, 1
otherwise.  The guard "not text or not text.strip()" holds exactly when
every character of text is whitespace.  Both a raising backend
(Except.error) and an exception inside the formatting loop fall to the
handler that returns the empty list. -/
def retrieve (opts : ChromaDBRetrieverOptions)
    (backend : Except String QueryResult) (text : String) :
    List RetrievedDocument × Nat :=
  if text.data.all Char.isWhitespace then ([], 0)
  else
    match backend with
    | .error _ => ([], 1)
    | .ok res =>
      match formatResults opts.similarity_threshold res with
      | .ok l => (l, 1)
      | .error _ => ([], 1)

/-- The surfaced hits on a well-formed backend row, as a filterMap over the
indices in backend order: index i survives iff its unrounded similarity
1 - min(distance, 1) reaches the threshold, and is surfaced with the
rounded similarity. -/
def retrieveHits (t : ℚ) (docs0 : List String) (dists0 : List ℚ)
    (metas0 : List Metadata) : List RetrievedDocument :=
  (List.range docs0.length).filterMap fun i =>
    let sim : ℚ := 1 - min (dists0.getD i 0) 1
    if t ≤ sim then
      some { content := docs0.getD i "",
             metadata := if metas0.isEmpty then [] else metas0.getD i [],
             similarity_score := round4 sim }
    else none

/-- Insert into a list already sorted by descending similarity, before the
first element whose similarity does not exceed the inserted one (so an
element arriving from the left stays left of equal elements: stability). -/
def insertDesc (x : RetrievedDocument) :
    List RetrievedDocument → List RetrievedDocument
  | [] => [x]
  | y :: ys =>
    if y.similarity_score ≤ x.similarity_score then x :: y :: ys
    else y :: insertDesc x ys

/-- Python's results.sort(key=lambda x: x['similarity_score'],
reverse=True): the stable descending sort by similarity score, realised
as insertion sort. -/
def sortDesc : List RetrievedDocument → List RetrievedDocument
  | [] => []
  | x :: xs => insertDesc x (sortDesc xs)

/-- One entry of the sources list built by retrieve_and_combine_results. -/
structure SourceEntry where
  metadata : Metadata
  similarity_score : ℚ
  content_preview : String
deriving DecidableEq

/-- The dict returned by retrieve_and_combine_results. -/
structure CombinedResult where
  combined_content : String
  sources : List SourceEntry
  total_sources : Nat
deriving DecidableEq

/-- doc['content'][:100] + "..." if len(doc['content']) > 100 else
doc['content']. -/
def contentPreview (c : String) : String :=
  if c.length > 100 then c.take 100 ++ "..." else c

/-- ChromaDBRetriever.retrieve_and_combine_results. -/
def retrieve_and_combine_results (opts : ChromaDBRetrieverOptions)
    (backend : Except String QueryResult) (text : String) : CombinedResult :=
  let results := (retrieve opts backend text).1
  if results.isEmpty then
    { combined_content := "", sources := [], total_sources := 0 }
  else
    let sorted := sortDesc results
    let contents := sorted.enum.map fun p =>
      "Document " ++ toString (p.1 + 1) ++ ":\n" ++ p.2.content
    { combined_content := String.intercalate "\n\n---\n\n" contents,
      sources := sorted.map fun doc =>
        { metadata := doc.metadata,
          similarity_score := doc.similarity_score,
          content_preview := contentPreview doc.content },
      total_sources := sorted.length }

/-- The dict returned by retrieve_and_generate. -/
structure GeneratedResult where
  generated_content : String
  summary : String
  sources : List SourceEntry
  total_sources : Nat
deriving DecidableEq

/-- ChromaDBRetriever.retrieve_and_generate.  The Python membership test
"'content_preview' in combined_results['sources'][0]" always succeeds on a
dict built by retrieve_and_combine_results, so the first branch is taken
exactly when the sources list is non-empty. -/
def retrieve_and_generate (opts : ChromaDBRetrieverOptions)
    (backend : Except String QueryResult) (text : String) : GeneratedResult :=
  let c := retrieve_and_combine_results opts backend text
  if c.combined_content = "" then
    { generated_content := "", summary := "", sources := [], total_sources := 0 }
  else
    let summary0 :=
      match c.sources with
      | s :: _ => s.content_preview
      | [] => (c.combined_content.splitOn "\n\n").headD ""
    let summary :=
      if summary0.length > 200 then summary0.take 197 ++ "..." else summary0
    { generated_content := c.combined_content, summary := summary,
      sources := c.sources, total_sources := c.total_sources }

/-- The dict returned by health_check. -/
structure HealthStatus where
  healthy : Bool
  message : String
deriving DecidableEq

/-- ChromaDBRetriever.health_check, with the backend count call modelled
as an Except value (error = the call raises). -/
def health_check (opts : ChromaDBRetrieverOptions)
    (count : Except String Nat) : HealthStatus :=
  match count with
  | .ok n =>
    { healthy := true,
      message := "Connected to collection '" ++ opts.collection_name ++
        "' with " ++ toString n ++ " documents" }
  | .error e =>
    { healthy := false,
      message := "Failed to connect to ChromaDB: " ++ e }

/-- A construction failure: a ValueError from option validation, or an
error raised while opening the client / resolving the collection. -/
inductive InitError where
  | valueError (msg : String)
  | backendError (msg : String)
deriving DecidableEq

/-- ChromaDBRetriever's constructor: the four option validations in source
order, then the backend client/collection initialisation, modelled as an
Except value consumed only after all validations pass. -/
def initRetriever (opts : ChromaDBRetrieverOptions)
    (backendInit : Except String Unit) : Except InitError Unit :=
  if opts.persist_directory = "" then
    .error (.valueError "persist_directory must be provided")
  else if opts.collection_name = "" then
    .error (.valueError "collection_name must be provided")
  else if opts.n_results ≤ 0 then
    .error (.valueError "n_results must be greater than 0")
  else if ¬ (0 ≤ opts.similarity_threshold ∧ opts.similarity_threshold ≤ 1) then
    .error (.valueError "similarity_threshold must be between 0 and 1")
  else
    match backendInit with
    | .ok _ => .ok ()
    | .error e => .error (.backendError e)

/-- A fragment of the Python value domain, for the dynamic behaviour of
retrieve on non-string arguments. -/
inductive PyVal where
  | pyStr (s : String)
  | pyNone
  | pyInt (n : Int)
deriving DecidableEq

/-- Python truthiness on the modelled values. -/
def pyTruthy : PyVal → Bool
  | .pyStr s => !(s == "")
  | .pyNone => false
  | .pyInt n => !(n == 0)

/-- The observable outcome of a call to retrieve with a value of dynamic
type: a normal return (with the backend call count), or an uncaught
exception of the stated class. -/
inductive PyOutcome where
  | result (docs : List RetrievedDocument) (backendCalls : Nat)
  | attributeError
  | typeError
deriving DecidableEq

/-- retrieve as executed by Python on an argument of any type.  The guard
"not text or not text.strip()" runs before the try block: a falsy
argument returns [] at once; a truthy non-string argument reaches
text.strip(), and None and int carry no strip attribute, so that lookup
raises AttributeError - uncaught, since it happens outside the try. -/
def retrieveDyn (opts : ChromaDBRetrieverOptions)
    (backend : Except String QueryResult) (v : PyVal) : PyOutcome :=
  match v with
  | .pyStr s =>
    let r := retrieve opts backend s
    .result r.1 r.2
  | v => if pyTruthy v then .attributeError else .result [] 0

lemma hitAt_eval (t : ℚ) (docs0 : List String) (dists0 : List ℚ)
    (metas0 : List Metadata) (dr : List (List String))
    (mr : List (List Metadata)) (tr : List (List ℚ)) (i : Nat)
    (h1 : i < dists0.length) (h2 : metas0 = [] ∨ i < metas0.length) :
    hitAt t { documents := docs0 :: dr, metadatas := metas0 :: mr,
              distances := dists0 :: tr } docs0 i =
      .ok (if t ≤ 1 - min (dists0.getD i 0) 1 then
            some { content := docs0.getD i "",
                   metadata := if metas0.isEmpty then [] else metas0.getD i [],
                   similarity_score := round4 (1 - min (dists0.getD i 0) 1) }
          else none) := by
  have hget : dists0.get? i = some (dists0.getD i 0) := by
    simp [List.get?_eq_getElem?, List.getElem?_eq_getElem h1,
      List.getD_eq_getElem?_getD]
  unfold hitAt
  simp only [List.head?_cons, hget]
  by_cases ht : t ≤ 1 - min (dists0.getD i 0) 1
  · rw [if_pos ht, if_pos ht]
    rcases h2 with h2 | h2
    · subst h2
      rfl
    · have hm : metas0.isEmpty = false := by
        cases metas0 with
        | nil => simp at h2
        | cons a l => simp [List.isEmpty]
      have hmget : metas0[i]? = some (metas0.getD i []) := by
        simp [List.getElem?_eq_getElem h2, List.getD_eq_getElem?_getD]
      simp only [hm, Bool.false_eq_true, if_false, List.get?_eq_getElem?, hmget]
  · rw [if_neg ht, if_neg ht]

lemma runLoop_eq (t : ℚ) (docs0 : List String) (dists0 : List ℚ)
    (metas0 : List Metadata) (dr : List (List String))
    (mr : List (List Metadata)) (tr : List (List ℚ)) :
    ∀ is : List Nat, (∀ i ∈ is, i < dists0.length) →
      (metas0 = [] ∨ ∀ i ∈ is, i < metas0.length) →
      runLoop t { documents := docs0 :: dr, metadatas := metas0 :: mr,
                  distances := dists0 :: tr } docs0 is =
        .ok (is.filterMap fun i =>
          let sim : ℚ := 1 - min (dists0.getD i 0) 1
          if t ≤ sim then
            some { content := docs0.getD i "",
                   metadata := if metas0.isEmpty then [] else metas0.getD i [],
                   similarity_score := round4 sim }
          else none) := by
  intro is
  induction is with
  | nil =>
    intro _ _
    simp [runLoop]
  | cons i is ih =>
    intro hd hm
    have hdi : i < dists0.length := hd i (by simp)
    have hmi : metas0 = [] ∨ i < metas0.length := by
      rcases hm with h | h
      · exact Or.inl h
      · exact Or.inr (h i (by simp))
    have hrest := ih (fun j hj => hd j (List.mem_cons_of_mem i hj))
      (by rcases hm with h | h
          · exact Or.inl h
          · exact Or.inr fun j hj => h j (List.mem_cons_of_mem i hj))
    simp only [runLoop, hitAt_eval t docs0 dists0 metas0 dr mr tr i hdi hmi, hrest,
      List.filterMap_cons]
    split <;> rename_i h <;> simp only [h]

lemma formatResults_eq (t : ℚ) (docs0 : List String) (dists0 : List ℚ)
    (metas0 : List Metadata) (dr : List (List String))
    (mr : List (List Metadata)) (tr : List (List ℚ))
    (h1 : docs0.length ≤ dists0.length)
    (h2 : metas0 = [] ∨ docs0.length ≤ metas0.length) :
    formatResults t { documents := docs0 :: dr, metadatas := metas0 :: mr,
                      distances := dists0 :: tr } =
      .ok (retrieveHits t docs0 dists0 metas0) := by
  unfold formatResults retrieveHits
  simp only [List.head?_cons]
  by_cases he : docs0.isEmpty
  · have : docs0 = [] := List.isEmpty_iff.mp he
    subst this
    simp
  · rw [if_neg he]
    apply runLoop_eq
    · intro i hi
      have := List.mem_range.mp hi
      omega
    · rcases h2 with h | h
      · exact Or.inl h
      · refine Or.inr fun i hi => ?_
        have := List.mem_range.mp hi
        omega

/-- On a non-whitespace query and a well-formed backend row (distances and
metadatas at least as long as the documents, or metadatas empty), retrieve
surfaces exactly the hits described by retrieveHits. -/
lemma retrieve_eq_hits (opts : ChromaDBRetrieverOptions) (docs0 : List String)
    (dists0 : List ℚ) (metas0 : List Metadata) (dr : List (List String))
    (mr : List (List Metadata)) (tr : List (List ℚ)) (text : String)
    (hw : text.data.all Char.isWhitespace = false)
    (h1 : docs0.length ≤ dists0.length)
    (h2 : metas0 = [] ∨ docs0.length ≤ metas0.length) :
    retrieve opts (.ok { documents := docs0 :: dr, metadatas := metas0 :: mr,
                         distances := dists0 :: tr }) text =
      (retrieveHits opts.similarity_threshold docs0 dists0 metas0, 1) := by
  unfold retrieve
  rw [hw]
  simp only [Bool.false_eq_true, if_false,
    formatResults_eq opts.similarity_threshold docs0 dists0 metas0 dr mr tr h1 h2]

lemma hitAt_ok_some (t : ℚ) (res : QueryResult) (docs0 : List String) (i : Nat)
    (doc : RetrievedDocument) (h : hitAt t res docs0 i = .ok (some doc)) :
    ∃ d : ℚ, t ≤ 1 - min d 1 ∧ doc.similarity_score = round4 (1 - min d 1) := by
  unfold hitAt at h
  rcases hdist : res.distances.head? with _ | dists0
  · rw [hdist] at h
    simp at h
  · rw [hdist] at h
    simp only [] at h
    rcases hget : dists0.get? i with _ | d
    · rw [hget] at h
      simp at h
    · rw [hget] at h
      simp only [] at h
      by_cases ht : t ≤ 1 - min d 1
      · rw [if_pos ht] at h
        rcases hmeta : res.metadatas.head? with _ | metas0
        · rw [hmeta] at h
          simp at h
        · rw [hmeta] at h
          simp only [] at h
          rcases hmm : (if metas0.isEmpty then some ([] : Metadata)
              else metas0.get? i) with _ | m
          · rw [hmm] at h
            simp at h
          · rw [hmm] at h
            simp only [Except.ok.injEq, Option.some.injEq] at h
            refine ⟨d, ht, ?_⟩
            rw [← h]
      · rw [if_neg ht] at h
        simp at h

lemma runLoop_mem (t : ℚ) (res : QueryResult) (docs0 : List String) :
    ∀ (is : List Nat) (l : List RetrievedDocument) (doc : RetrievedDocument),
      runLoop t res docs0 is = .ok l → doc ∈ l →
      ∃ i, hitAt t res docs0 i = .ok (some doc) := by
  intro is
  induction is with
  | nil =>
    intro l doc h hm
    simp only [runLoop, Except.ok.injEq] at h
    subst h
    simp at hm
  | cons i is ih =>
    intro l doc h hm
    simp only [runLoop] at h
    split at h
    · simp at h
    · rename_i r hr
      split at h
      · simp at h
      · rename_i rest hrest
        simp only [Except.ok.injEq] at h
        subst h
        cases r with
        | some d =>
          rcases List.mem_cons.mp hm with he | htl
          · subst he
            exact ⟨i, hr⟩
          · exact ih rest doc hrest htl
        | none => exact ih rest doc hrest hm

lemma retrieve_mem (opts : ChromaDBRetrieverOptions)
    (backend : Except String QueryResult) (text : String)
    (doc : RetrievedDocument) (h : doc ∈ (retrieve opts backend text).1) :
    ∃ sim : ℚ, 0 ≤ sim ∧ opts.similarity_threshold ≤ sim ∧
      doc.similarity_score = round4 sim := by
  unfold retrieve at h
  split at h
  · simp at h
  · cases backend with
    | error e => simp at h
    | ok res =>
      simp only at h
      split at h
      · rename_i l hf
        simp only at h
        unfold formatResults at hf
        split at hf
        · simp only [Except.ok.injEq] at hf
          subst hf
          simp at h
        · rename_i docs0 hd
          split at hf
          · simp only [Except.ok.injEq] at hf
            subst hf
            simp at h
          · obtain ⟨i, hi⟩ := runLoop_mem opts.similarity_threshold res docs0 _ l doc hf h
            obtain ⟨d, htd, hsc⟩ := hitAt_ok_some opts.similarity_threshold res docs0 i doc hi
            refine ⟨1 - min d 1, ?_, htd, hsc⟩
            have hm : min d 1 ≤ 1 := min_le_right d 1
            linarith
      · simp at h

lemma mem_insertDesc (x z : RetrievedDocument) (s : List RetrievedDocument) :
    z ∈ insertDesc x s ↔ z = x ∨ z ∈ s := by
  induction s with
  | nil => simp [insertDesc]
  | cons y ys ih =>
    unfold insertDesc
    split
    · simp [List.mem_cons]
    · simp only [List.mem_cons, ih]
      tauto

lemma length_insertDesc (x : RetrievedDocument) (s : List RetrievedDocument) :
    (insertDesc x s).length = s.length + 1 := by
  induction s with
  | nil => rfl
  | cons y ys ih =>
    unfold insertDesc
    split
    · rfl
    · simp [ih]

lemma length_sortDesc (l : List RetrievedDocument) :
    (sortDesc l).length = l.length := by
  induction l with
  | nil => rfl
  | cons x xs ih => simp [sortDesc, length_insertDesc, ih]

lemma pairwise_insertDesc (x : RetrievedDocument) (s : List RetrievedDocument)
    (h : s.Pairwise fun a b => b.similarity_score ≤ a.similarity_score) :
    (insertDesc x s).Pairwise fun a b => b.similarity_score ≤ a.similarity_score := by
  induction s with
  | nil => simp [insertDesc]
  | cons y ys ih =>
    rcases List.pairwise_cons.mp h with ⟨hy, hys⟩
    unfold insertDesc
    split
    · rename_i hle
      refine List.pairwise_cons.mpr ⟨?_, h⟩
      intro z hz
      rcases List.mem_cons.mp hz with he | hm
      · subst he
        exact hle
      · exact le_trans (hy z hm) hle
    · rename_i hgt
      refine List.pairwise_cons.mpr ⟨?_, ih hys⟩
      intro z hz
      rcases (mem_insertDesc x z ys).mp hz with he | hm
      · subst he
        exact le_of_not_le hgt
      · exact hy z hm

/-- The stable descending sort really is sorted by descending similarity. -/
lemma sortDesc_sorted (l : List RetrievedDocument) :
    (sortDesc l).Pairwise fun a b => b.similarity_score ≤ a.similarity_score := by
  induction l with
  | nil => simp [sortDesc]
  | cons x xs ih => exact pairwise_insertDesc x (sortDesc xs) ih

lemma filter_insertDesc (x : RetrievedDocument) (s : List RetrievedDocument)
    (q : ℚ) :
    (insertDesc x s).filter (fun d => d.similarity_score == q) =
      if x.similarity_score = q then
        x :: s.filter (fun d => d.similarity_score == q)
      else s.filter (fun d => d.similarity_score == q) := by
  induction s with
  | nil =>
    by_cases hx : x.similarity_score = q
    · have hx' : (x.similarity_score == q) = true := beq_iff_eq.mpr hx
      simp [insertDesc, List.filter_cons, hx', hx]
    · have hx' : (x.similarity_score == q) = false := beq_eq_false_iff_ne.mpr hx
      simp [insertDesc, List.filter_cons, hx', hx]
  | cons y ys ih =>
    unfold insertDesc
    split
    · rename_i hle
      by_cases hx : x.similarity_score = q
      · have hx' : (x.similarity_score == q) = true := beq_iff_eq.mpr hx
        simp [List.filter_cons, hx', hx]
      · have hx' : (x.similarity_score == q) = false := beq_eq_false_iff_ne.mpr hx
        simp [List.filter_cons, hx', hx]
    · rename_i hgt
      have hxy : x.similarity_score < y.similarity_score := lt_of_not_le hgt
      by_cases hx : x.similarity_score = q
      · have hy : (y.similarity_score == q) = false := by
          apply beq_eq_false_iff_ne.mpr
          intro hc
          rw [hx] at hxy
          rw [hc] at hxy
          exact lt_irrefl q hxy
        simp [List.filter_cons, hy, ih, hx]
      · have hx' : (x.similarity_score == q) = false := beq_eq_false_iff_ne.mpr hx
        by_cases hy : y.similarity_score = q
        · have hy' : (y.similarity_score == q) = true := beq_iff_eq.mpr hy
          simp [List.filter_cons, hy', ih, hx]
        · have hy' : (y.similarity_score == q) = false := beq_eq_false_iff_ne.mpr hy
          simp [List.filter_cons, hy', ih, hx]

/-- Stability of the sort: for every similarity value, the sublist of
documents carrying exactly that value is unchanged, so ties keep their
original relative order. -/
lemma filter_sortDesc (l : List RetrievedDocument) (q : ℚ) :
    (sortDesc l).filter (fun d => d.similarity_score == q) =
      l.filter (fun d => d.similarity_score == q) := by
  induction l with
  | nil => rfl
  | cons x xs ih =>
    simp only [sortDesc, filter_insertDesc, ih, List.filter_cons]
    by_cases hx : x.similarity_score = q
    · simp [hx]
    · simp [hx]


/-- A valid sample configuration with the given similarity threshold. -/
def sampleOptions (t : ℚ) : ChromaDBRetrieverOptions :=
  { persist_directory := "db", collection_name := "col",
    n_results := 5, similarity_threshold := t }

/-- A well-formed one-row backend response with empty metadata row. -/
def sampleResponse (docs : List String) (dists : List ℚ) : QueryResult :=
  { documents := [docs], metadatas := [[]], distances := [dists] }

lemma sampleOptions_threshold (t : ℚ) :
    (sampleOptions t).similarity_threshold = t := rfl

/-- C1 fails as stated: with similarity_threshold 0.70003 and a backend
distance of 0.29996, the unrounded similarity 0.70004 passes the
threshold, but the surfaced similarity_score is the rounded value 0.7,
which is below the threshold. -/
theorem C1_counterexample :
    ∃ doc ∈ (retrieve (sampleOptions (70003/100000))
        (.ok (sampleResponse ["doc"] [29996/100000])) "query").1,
      doc.similarity_score < (sampleOptions (70003/100000)).similarity_threshold := by
  have hg : ("query".data.all Char.isWhitespace) = false := by decide
  have he : (retrieve (sampleOptions (70003/100000))
      (.ok (sampleResponse ["doc"] [29996/100000])) "query").1 =
      [{ content := "doc", metadata := [], similarity_score := 7/10 }] := by
    norm_num [retrieve, hg, sampleOptions, sampleResponse, formatResults,
      runLoop, hitAt, min_def, List.range_succ, round4, roundHalfEven]
  rw [he]
  refine ⟨{ content := "doc", metadata := [], similarity_score := 7/10 },
    by simp, ?_⟩
  rw [sampleOptions_threshold]
  norm_num

lemma map_score_retrieveHits (t : ℚ) (docs0 : List String) (dists0 : List ℚ)
    (metas0 : List Metadata) :
    (retrieveHits t docs0 dists0 metas0).map (fun d => d.similarity_score) =
      (List.range docs0.length).filterMap fun i =>
        let sim : ℚ := 1 - min (dists0.getD i 0) 1
        if t ≤ sim then some (round4 sim) else none := by
  unfold retrieveHits
  rw [List.map_filterMap]
  apply List.filterMap_congr
  intro i _
  by_cases ht : t ≤ 1 - min (dists0.getD i 0) 1
  · simp [ht]
  · simp [ht]

lemma mem_retrieveHits (t : ℚ) (docs0 : List String) (dists0 : List ℚ)
    (metas0 : List Metadata) (doc : RetrievedDocument)
    (h : doc ∈ retrieveHits t docs0 dists0 metas0) :
    ∃ i, i < docs0.length ∧
      doc.similarity_score = round4 (1 - min (dists0.getD i 0) 1) := by
  unfold retrieveHits at h
  obtain ⟨i, hi, hf⟩ := List.mem_filterMap.mp h
  refine ⟨i, List.mem_range.mp hi, ?_⟩
  by_cases ht : t ≤ 1 - min (dists0.getD i 0) 1
  · rw [if_pos ht] at hf
    simp only [Option.some.injEq] at hf
    rw [← hf]
  · rw [if_neg ht] at hf
    simp at hf

lemma getD_nonneg (dists0 : List ℚ) (i : Nat) (h : ∀ d ∈ dists0, 0 ≤ d) :
    0 ≤ dists0.getD i 0 := by
  by_cases hi : i < dists0.length
  · have he : dists0.getD i 0 = dists0.get ⟨i, hi⟩ := by
      simp [List.getD_eq_getElem?_getD, List.getElem?_eq_getElem hi]
    rw [he]
    exact h _ (List.get_mem dists0 i hi)
  · have he : dists0.getD i 0 = 0 := by
      simp [List.getD_eq_getElem?_getD, List.getElem?_eq_none (by omega : dists0.length ≤ i)]
    rw [he]

/-- C1 (amended): the threshold test is applied to the unrounded
similarity 1 - min(distance, 1): on a well-formed backend row retrieve
returns exactly the hits whose unrounded similarity reaches the
threshold, in backend order, carrying the rounded score (retrieveHits);
consequently every surfaced similarity_score is at least the threshold
minus 5e-5 (the stored, rounded score itself may fall below the
threshold, as C1_counterexample shows); with similarity_threshold 0.8
and backend distances [0.3, 0.4], retrieve returns the empty sequence. -/
theorem C1_threshold_filtering :
    (∀ (opts : ChromaDBRetrieverOptions) (backend : Except String QueryResult)
        (text : String) (doc : RetrievedDocument),
        doc ∈ (retrieve opts backend text).1 →
        opts.similarity_threshold - 5/100000 ≤ doc.similarity_score)
    ∧ (∀ (opts : ChromaDBRetrieverOptions) (docs0 : List String)
        (dists0 : List ℚ) (metas0 : List Metadata) (dr : List (List String))
        (mr : List (List Metadata)) (tr : List (List ℚ)) (text : String),
        text.data.all Char.isWhitespace = false →
        docs0.length ≤ dists0.length →
        (metas0 = [] ∨ docs0.length ≤ metas0.length) →
        (retrieve opts (.ok { documents := docs0 :: dr,
                              metadatas := metas0 :: mr,
                              distances := dists0 :: tr }) text).1 =
          retrieveHits opts.similarity_threshold docs0 dists0 metas0)
    ∧ (retrieve (sampleOptions (8/10))
        (.ok (sampleResponse ["a", "b"] [3/10, 4/10])) "query").1 = [] := by
  refine ⟨?_, ?_, ?_⟩
  · intro opts backend text doc h
    obtain ⟨sim, h0, ht, hs⟩ := retrieve_mem opts backend text doc h
    have hr := round4_sub_abs sim
    rw [abs_le] at hr
    rw [hs]
    linarith [hr.1]
  · intro opts docs0 dists0 metas0 dr mr tr text hw h1 h2
    rw [retrieve_eq_hits opts docs0 dists0 metas0 dr mr tr text hw h1 h2]
  · have hg : ("query".data.all Char.isWhitespace) = false := by decide
    norm_num [retrieve, hg, sampleOptions, sampleResponse, formatResults,
      runLoop, hitAt, min_def, List.range_succ]

/-- Witness for C1_threshold_filtering: its hypotheses are satisfiable on
a concrete run (one document at distance 0.1, threshold 0.5). -/
theorem C1_threshold_filtering_witness :
    ((sampleOptions (1/2)).similarity_threshold - 5/100000 ≤
      ({ content := "a", metadata := [], similarity_score := 9/10 } :
        RetrievedDocument).similarity_score)
    ∧ (retrieve (sampleOptions (1/2))
        (.ok { documents := [["a"]], metadatas := [[]],
               distances := [[1/10]] }) "query").1 =
      retrieveHits (sampleOptions (1/2)).similarity_threshold ["a"] [1/10] [] := by
  have hg : ("query".data.all Char.isWhitespace) = false := by decide
  have hmem : ({ content := "a", metadata := [], similarity_score := 9/10 } :
      RetrievedDocument) ∈ (retrieve (sampleOptions (1/2))
        (.ok { documents := [["a"]], metadatas := [[]],
               distances := [[1/10]] }) "query").1 := by
    have he : (retrieve (sampleOptions (1/2))
        (.ok { documents := [["a"]], metadatas := [[]],
               distances := [[1/10]] }) "query").1 =
        [{ content := "a", metadata := [], similarity_score := 9/10 }] := by
      norm_num [retrieve, hg, sampleOptions, formatResults,
        runLoop, hitAt, min_def, List.range_succ, round4, roundHalfEven]
    rw [he]
    simp
  constructor
  · exact C1_threshold_filtering.1 (sampleOptions (1/2)) _ "query" _ hmem
  · exact C1_threshold_filtering.2.1 (sampleOptions (1/2)) ["a"] [1/10] []
      [] [] [] "query" hg (by norm_num) (Or.inl rfl)

/-- C2 fails as stated, on two counts.  First, the surfaced
similarity_score is not exactly 1 - min(distance, 1): for distance
0.00001 the exact similarity is 0.99999 but the stored score is the
rounded value 1.  Second, the claimed example is wrong: for distances
[0.2, 0.4] with similarity_threshold 0.7 the second hit has similarity
0.6 < 0.7 and is discarded, so retrieve returns one document, not two. -/
theorem C2_counterexample :
    ((retrieve (sampleOptions (7/10))
        (.ok (sampleResponse ["doc"] [1/100000])) "query").1 =
      [{ content := "doc", metadata := [], similarity_score := 1 }]
     ∧ (1 : ℚ) ≠ 1 - min (1/100000 : ℚ) 1)
    ∧ (retrieve (sampleOptions (7/10))
        (.ok (sampleResponse ["a", "b"] [1/5, 2/5])) "query").1 =
      [{ content := "a", metadata := [], similarity_score := 4/5 }] := by
  have hg : ("query".data.all Char.isWhitespace) = false := by decide
  refine ⟨⟨?_, by norm_num [min_def]⟩, ?_⟩
  · norm_num [retrieve, hg, sampleOptions, sampleResponse, formatResults,
      runLoop, hitAt, min_def, List.range_succ, round4, roundHalfEven]
  · norm_num [retrieve, hg, sampleOptions, sampleResponse, formatResults,
      runLoop, hitAt, min_def, List.range_succ, round4, roundHalfEven]

/-- C2 (amended): the surfaced similarity_score is round(1 - min(distance,
1.0), 4), the exact value rounded half-even to 4 decimals: on a
well-formed backend row, the sequence of surfaced scores is exactly the
thresholded, rounded similarities of the backend distances, in backend
order; every surfaced score is nonnegative, and at most 1 whenever the
backend distances are nonnegative; for distances [0.2, 0.4] with
similarity_threshold 0.7, retrieve returns one document with score 0.8
(the 0.6 hit is below the threshold); with threshold 0.6 it returns the
two documents with scores 0.8 and 0.6, in that order. -/
theorem C2_similarity_formula :
    (∀ (opts : ChromaDBRetrieverOptions) (docs0 : List String)
        (dists0 : List ℚ) (metas0 : List Metadata) (dr : List (List String))
        (mr : List (List Metadata)) (tr : List (List ℚ)) (text : String),
        text.data.all Char.isWhitespace = false →
        docs0.length ≤ dists0.length →
        (metas0 = [] ∨ docs0.length ≤ metas0.length) →
        ((retrieve opts (.ok { documents := docs0 :: dr,
                               metadatas := metas0 :: mr,
                               distances := dists0 :: tr }) text).1).map
            (fun d => d.similarity_score) =
          (List.range docs0.length).filterMap fun i =>
            let sim : ℚ := 1 - min (dists0.getD i 0) 1
            if opts.similarity_threshold ≤ sim then some (round4 sim) else none)
    ∧ (∀ (opts : ChromaDBRetrieverOptions) (backend : Except String QueryResult)
        (text : String) (doc : RetrievedDocument),
        doc ∈ (retrieve opts backend text).1 → 0 ≤ doc.similarity_score)
    ∧ (∀ (t : ℚ) (docs0 : List String) (dists0 : List ℚ)
        (metas0 : List Metadata) (doc : RetrievedDocument),
        (∀ d ∈ dists0, 0 ≤ d) →
        doc ∈ retrieveHits t docs0 dists0 metas0 → doc.similarity_score ≤ 1)
    ∧ (retrieve (sampleOptions (7/10))
        (.ok (sampleResponse ["a", "b"] [1/5, 2/5])) "query").1 =
      [{ content := "a", metadata := [], similarity_score := 4/5 }]
    ∧ (retrieve (sampleOptions (6/10))
        (.ok (sampleResponse ["a", "b"] [1/5, 2/5])) "query").1 =
      [{ content := "a", metadata := [], similarity_score := 4/5 },
       { content := "b", metadata := [], similarity_score := 3/5 }] := by
  have hg : ("query".data.all Char.isWhitespace) = false := by decide
  refine ⟨?_, ?_, ?_, ?_, ?_⟩
  · intro opts docs0 dists0 metas0 dr mr tr text hw h1 h2
    rw [retrieve_eq_hits opts docs0 dists0 metas0 dr mr tr text hw h1 h2]
    exact map_score_retrieveHits opts.similarity_threshold docs0 dists0 metas0
  · intro opts backend text doc h
    obtain ⟨sim, h0, _, hs⟩ := retrieve_mem opts backend text doc h
    rw [hs]
    exact round4_nonneg sim h0
  · intro t docs0 dists0 metas0 doc hd h
    obtain ⟨i, _, hs⟩ := mem_retrieveHits t docs0 dists0 metas0 doc h
    rw [hs]
    apply round4_le_one
    have := getD_nonneg dists0 i hd
    have hmin : 0 ≤ min (dists0.getD i 0) 1 := le_min this (by norm_num)
    linarith
  · norm_num [retrieve, hg, sampleOptions, sampleResponse, formatResults,
      runLoop, hitAt, min_def, List.range_succ, round4, roundHalfEven]
  · norm_num [retrieve, hg, sampleOptions, sampleResponse, formatResults,
      runLoop, hitAt, min_def, List.range_succ, round4, roundHalfEven]

/-- Witness for C2_similarity_formula at a concrete well-formed run. -/
theorem C2_similarity_formula_witness :
    (((retrieve (sampleOptions (1/2))
        (.ok { documents := [["a"]], metadatas := [[]],
               distances := [[1/10]] }) "query").1).map
        (fun d => d.similarity_score) =
      (List.range (["a"] : List String).length).filterMap fun i =>
        let sim : ℚ := 1 - min (([1/10] : List ℚ).getD i 0) 1
        if (sampleOptions (1/2)).similarity_threshold ≤ sim then
          some (round4 sim) else none)
    ∧ (0 : ℚ) ≤ ({ content := "a", metadata := [], similarity_score := 9/10 } :
        RetrievedDocument).similarity_score
    ∧ ({ content := "a", metadata := [], similarity_score := 9/10 } :
        RetrievedDocument).similarity_score ≤ 1 := by
  have hg : ("query".data.all Char.isWhitespace) = false := by decide
  have he : (retrieve (sampleOptions (1/2))
      (.ok { documents := [["a"]], metadatas := [[]],
             distances := [[1/10]] }) "query").1 =
      [{ content := "a", metadata := [], similarity_score := 9/10 }] := by
    norm_num [retrieve, hg, sampleOptions, formatResults,
      runLoop, hitAt, min_def, List.range_succ, round4, roundHalfEven]
  have hmem : ({ content := "a", metadata := [], similarity_score := 9/10 } :
      RetrievedDocument) ∈ (retrieve (sampleOptions (1/2))
        (.ok { documents := [["a"]], metadatas := [[]],
               distances := [[1/10]] }) "query").1 := by
    rw [he]
    simp
  have hhits : ({ content := "a", metadata := [], similarity_score := 9/10 } :
      RetrievedDocument) ∈ retrieveHits (1/2) ["a"] [1/10] [] := by
    have h2 := retrieve_eq_hits (sampleOptions (1/2)) ["a"] [1/10] []
      [] [] [] "query" hg (by norm_num) (Or.inl rfl)
    rw [h2] at hmem
    exact hmem
  refine ⟨?_, ?_, ?_⟩
  · exact C2_similarity_formula.1 (sampleOptions (1/2)) ["a"] [1/10] []
      [] [] [] "query" hg (by norm_num) (Or.inl rfl)
  · exact C2_similarity_formula.2.1 (sampleOptions (1/2)) _ "query" _ hmem
  · exact C2_similarity_formula.2.2.1 (1/2) ["a"] [1/10] [] _
      (by intro d hd; simp at hd; rw [hd]; norm_num) hhits

/-- C10: every document surfaced by retrieve carries a similarity_score
that is the unrounded similarity rounded half-even to 4 decimal places;
the inclusion decision used the unrounded value (which reaches the
threshold even when the stored score does not); the stored score is an
integer multiple of 1/10000 and differs from the exact similarity by at
most 5e-5. -/
theorem C10_rounded_scores :
    ∀ (opts : ChromaDBRetrieverOptions) (backend : Except String QueryResult)
      (text : String) (doc : RetrievedDocument),
      doc ∈ (retrieve opts backend text).1 →
      ∃ sim : ℚ, opts.similarity_threshold ≤ sim ∧
        doc.similarity_score = round4 sim ∧
        |doc.similarity_score - sim| ≤ 5/100000 ∧
        ∃ z : ℤ, doc.similarity_score = (z : ℚ) / 10000 := by
  intro opts backend text doc h
  obtain ⟨sim, _, ht, hs⟩ := retrieve_mem opts backend text doc h
  refine ⟨sim, ht, hs, ?_, ?_⟩
  · rw [hs]
    exact round4_sub_abs sim
  · rw [hs]
    exact ⟨roundHalfEven (sim * 10000), rfl⟩

/-- Witness for C10_rounded_scores: a run where rounding is visible
(distance 0.29996, threshold 0.7: stored score 0.7 equals
round4(0.70004)). -/
theorem C10_rounded_scores_witness :
    ({ content := "doc", metadata := [], similarity_score := 7/10 } :
        RetrievedDocument) ∈
      (retrieve (sampleOptions (7/10))
        (.ok (sampleResponse ["doc"] [29996/100000])) "query").1
    ∧ ∃ sim : ℚ, (sampleOptions (7/10)).similarity_threshold ≤ sim ∧
        (7/10 : ℚ) = round4 sim ∧ |(7/10 : ℚ) - sim| ≤ 5/100000 ∧
        ∃ z : ℤ, (7/10 : ℚ) = (z : ℚ) / 10000 := by
  have hg : ("query".data.all Char.isWhitespace) = false := by decide
  have he : (retrieve (sampleOptions (7/10))
      (.ok (sampleResponse ["doc"] [29996/100000])) "query").1 =
      [{ content := "doc", metadata := [], similarity_score := 7/10 }] := by
    norm_num [retrieve, hg, sampleOptions, sampleResponse, formatResults,
      runLoop, hitAt, min_def, List.range_succ, round4, roundHalfEven]
  have hmem : ({ content := "doc", metadata := [],
                 similarity_score := 7/10 } : RetrievedDocument) ∈
      (retrieve (sampleOptions (7/10))
        (.ok (sampleResponse ["doc"] [29996/100000])) "query").1 := by
    rw [he]
    simp
  refine ⟨hmem, ?_⟩
  simpa using C10_rounded_scores (sampleOptions (7/10)) _ "query" _ hmem

/-- C3: a raising backend makes retrieve return the empty list; an
exception inside the result-formatting body (the model of a malformed
response: ragged or missing parallel arrays) also makes retrieve return
the empty list; and under a raising backend count call health_check
returns healthy = false.  All three functions are total Lean functions,
so no exception crosses the public boundary in the model. -/
theorem C3_backend_failure_absorbed :
    (∀ (opts : ChromaDBRetrieverOptions) (e : String) (text : String),
        (retrieve opts (.error e) text).1 = [])
    ∧ (∀ (opts : ChromaDBRetrieverOptions) (res : QueryResult) (text : String)
        (msg : String),
        formatResults opts.similarity_threshold res = .error msg →
        (retrieve opts (.ok res) text).1 = [])
    ∧ (∀ (opts : ChromaDBRetrieverOptions) (e : String),
        health_check opts (.error e) =
          { healthy := false,
            message := "Failed to connect to ChromaDB: " ++ e }) := by
  refine ⟨?_, ?_, ?_⟩
  · intro opts e text
    unfold retrieve
    split
    · rfl
    · rfl
  · intro opts res text msg h
    unfold retrieve
    split
    · rfl
    · simp only []
      rw [h]
  · intro opts e
    rfl

/-- Witness for C3_backend_failure_absorbed: a concrete malformed
response whose distances row is missing makes the formatting body raise
and retrieve return the empty list. -/
theorem C3_backend_failure_absorbed_witness :
    formatResults (sampleOptions (7/10)).similarity_threshold
        { documents := [["d"]], metadatas := [[]], distances := [] } =
      .error "IndexError: distances"
    ∧ (retrieve (sampleOptions (7/10))
        (.ok { documents := [["d"]], metadatas := [[]], distances := [] })
        "query").1 = [] := by
  constructor
  · rfl
  · exact C3_backend_failure_absorbed.2.1 (sampleOptions (7/10))
      { documents := [["d"]], metadatas := [[]], distances := [] }
      "query" "IndexError: distances" rfl

/-- C5: the constructor validates the options in source order (empty
persist_directory, then empty collection_name, then n_results at most 0,
then similarity_threshold outside [0, 1]) and fails with the ValueError
naming the first violated constraint; the result does not depend on the
backend initialisation argument, so validation failures happen before
any backend call; in particular n_results = 0, threshold 1.5 and an
empty collection name each fail this way. -/
theorem C5_construction_validation :
    (∀ (opts : ChromaDBRetrieverOptions) (b : Except String Unit),
        opts.persist_directory = "" →
        initRetriever opts b =
          .error (.valueError "persist_directory must be provided"))
    ∧ (∀ (opts : ChromaDBRetrieverOptions) (b : Except String Unit),
        opts.persist_directory ≠ "" → opts.collection_name = "" →
        initRetriever opts b =
          .error (.valueError "collection_name must be provided"))
    ∧ (∀ (opts : ChromaDBRetrieverOptions) (b : Except String Unit),
        opts.persist_directory ≠ "" → opts.collection_name ≠ "" →
        opts.n_results ≤ 0 →
        initRetriever opts b =
          .error (.valueError "n_results must be greater than 0"))
    ∧ (∀ (opts : ChromaDBRetrieverOptions) (b : Except String Unit),
        opts.persist_directory ≠ "" → opts.collection_name ≠ "" →
        0 < opts.n_results →
        ¬ (0 ≤ opts.similarity_threshold ∧ opts.similarity_threshold ≤ 1) →
        initRetriever opts b =
          .error (.valueError "similarity_threshold must be between 0 and 1"))
    ∧ (∀ b : Except String Unit,
        initRetriever { persist_directory := "db", collection_name := "col",
                        n_results := 0, similarity_threshold := 7/10 } b =
          .error (.valueError "n_results must be greater than 0"))
    ∧ (∀ b : Except String Unit,
        initRetriever { persist_directory := "db", collection_name := "col",
                        n_results := 5, similarity_threshold := 3/2 } b =
          .error (.valueError "similarity_threshold must be between 0 and 1"))
    ∧ (∀ b : Except String Unit,
        initRetriever { persist_directory := "db", collection_name := "",
                        n_results := 5, similarity_threshold := 7/10 } b =
          .error (.valueError "collection_name must be provided")) := by
  have p1 : ∀ (opts : ChromaDBRetrieverOptions) (b : Except String Unit),
      opts.persist_directory = "" →
      initRetriever opts b =
        .error (.valueError "persist_directory must be provided") := by
    intro opts b h
    unfold initRetriever
    rw [if_pos h]
  have p2 : ∀ (opts : ChromaDBRetrieverOptions) (b : Except String Unit),
      opts.persist_directory ≠ "" → opts.collection_name = "" →
      initRetriever opts b =
        .error (.valueError "collection_name must be provided") := by
    intro opts b h1 h2
    unfold initRetriever
    rw [if_neg h1, if_pos h2]
  have p3 : ∀ (opts : ChromaDBRetrieverOptions) (b : Except String Unit),
      opts.persist_directory ≠ "" → opts.collection_name ≠ "" →
      opts.n_results ≤ 0 →
      initRetriever opts b =
        .error (.valueError "n_results must be greater than 0") := by
    intro opts b h1 h2 h3
    unfold initRetriever
    rw [if_neg h1, if_neg h2, if_pos h3]
  have p4 : ∀ (opts : ChromaDBRetrieverOptions) (b : Except String Unit),
      opts.persist_directory ≠ "" → opts.collection_name ≠ "" →
      0 < opts.n_results →
      ¬ (0 ≤ opts.similarity_threshold ∧ opts.similarity_threshold ≤ 1) →
      initRetriever opts b =
        .error (.valueError "similarity_threshold must be between 0 and 1") := by
    intro opts b h1 h2 h3 h4
    unfold initRetriever
    rw [if_neg h1, if_neg h2, if_neg (not_le.mpr h3), if_pos h4]
  refine ⟨p1, p2, p3, p4, ?_, ?_, ?_⟩
  · intro b
    exact p3 _ b (by decide) (by decide) (by decide)
  · intro b
    exact p4 _ b (by decide) (by decide) (by decide) (by norm_num)
  · intro b
    exact p2 _ b (by decide) rfl

/-- Witness for C5_construction_validation: an empty persist_directory
fails with the first validation error, whatever the backend would do. -/
theorem C5_construction_validation_witness :
    initRetriever { persist_directory := "", collection_name := "col",
                    n_results := 5, similarity_threshold := 7/10 }
        (.ok ()) =
      .error (.valueError "persist_directory must be provided") :=
  C5_construction_validation.1 _ (.ok ()) rfl

/-- C6: on a query that is empty or consists only of whitespace, retrieve
returns the empty list as a defined result and performs zero backend
calls (the second component of the pair counts backend invocations). -/
theorem C6_empty_query_short_circuit :
    ∀ (opts : ChromaDBRetrieverOptions) (backend : Except String QueryResult)
      (text : String),
      text.data.all Char.isWhitespace = true →
      retrieve opts backend text = ([], 0) := by
  intro opts backend text h
  unfold retrieve
  rw [if_pos h]

/-- Witness for C6_empty_query_short_circuit on the empty query and a
whitespace-only query, against a backend that would return a hit. -/
theorem C6_empty_query_short_circuit_witness :
    ("".data.all Char.isWhitespace = true
      ∧ retrieve (sampleOptions (7/10))
          (.ok (sampleResponse ["d"] [0])) "" = ([], 0))
    ∧ ("   ".data.all Char.isWhitespace = true
      ∧ retrieve (sampleOptions (7/10))
          (.ok (sampleResponse ["d"] [0])) "   " = ([], 0)) :=
  ⟨⟨by decide, C6_empty_query_short_circuit (sampleOptions (7/10))
      (.ok (sampleResponse ["d"] [0])) "" (by decide)⟩,
   ⟨by decide, C6_empty_query_short_circuit (sampleOptions (7/10))
      (.ok (sampleResponse ["d"] [0])) "   " (by decide)⟩⟩

/-- C7 fails as stated: retrieve applies no type check to its query
argument.  The falsy non-string None passes the truthiness guard and is
answered with the normal empty result (backend untouched), and the
truthy non-string 123 fails with an AttributeError (no strip attribute),
not a TypeError. -/
theorem C7_counterexample :
    retrieveDyn (sampleOptions (7/10)) (.ok (sampleResponse ["d"] [1/10]))
        PyVal.pyNone = .result [] 0
    ∧ retrieveDyn (sampleOptions (7/10)) (.ok (sampleResponse ["d"] [1/10]))
        (PyVal.pyInt 123) = .attributeError
    ∧ PyOutcome.result [] 0 ≠ PyOutcome.typeError
    ∧ PyOutcome.attributeError ≠ PyOutcome.typeError := by
  refine ⟨rfl, rfl, by simp, by simp⟩

/-- C7 (amended): retrieve never raises a TypeError-class error on any
modelled argument; a falsy argument (None, 0, or the empty string) is
answered with the normal empty result and zero backend calls, and a
truthy non-string integer fails with an AttributeError raised by the
strip attribute lookup, outside the try block. -/
theorem C7_no_type_check :
    (∀ (opts : ChromaDBRetrieverOptions) (backend : Except String QueryResult)
        (v : PyVal), pyTruthy v = false →
        retrieveDyn opts backend v = .result [] 0)
    ∧ (∀ (opts : ChromaDBRetrieverOptions) (backend : Except String QueryResult)
        (n : Int), n ≠ 0 →
        retrieveDyn opts backend (.pyInt n) = .attributeError)
    ∧ (∀ (opts : ChromaDBRetrieverOptions) (backend : Except String QueryResult)
        (v : PyVal), retrieveDyn opts backend v ≠ .typeError) := by
  refine ⟨?_, ?_, ?_⟩
  · intro opts backend v h
    cases v with
    | pyStr s =>
      have hs : s = "" := by
        simpa [pyTruthy] using h
      subst hs
      rfl
    | pyNone => rfl
    | pyInt n =>
      have hn : n = 0 := by
        simpa [pyTruthy] using h
      subst hn
      rfl
  · intro opts backend n h
    have hn : (n == 0) = false := by
      simpa using h
    simp [retrieveDyn, pyTruthy, hn]
  · intro opts backend v
    cases v with
    | pyStr s => simp [retrieveDyn]
    | pyNone => simp [retrieveDyn, pyTruthy]
    | pyInt n =>
      simp only [retrieveDyn]
      split <;> simp

/-- Witness for C7_no_type_check at concrete non-string arguments. -/
theorem C7_no_type_check_witness :
    (pyTruthy PyVal.pyNone = false
      ∧ retrieveDyn (sampleOptions (7/10))
          (.ok (sampleResponse ["d"] [1/10])) PyVal.pyNone = .result [] 0)
    ∧ ((123 : Int) ≠ 0
      ∧ retrieveDyn (sampleOptions (7/10))
          (.ok (sampleResponse ["d"] [1/10])) (PyVal.pyInt 123) =
        .attributeError)
    ∧ retrieveDyn (sampleOptions (7/10))
        (.ok (sampleResponse ["d"] [1/10])) PyVal.pyNone ≠ .typeError :=
  ⟨⟨rfl, C7_no_type_check.1 (sampleOptions (7/10))
      (.ok (sampleResponse ["d"] [1/10])) PyVal.pyNone rfl⟩,
   ⟨by decide, C7_no_type_check.2.1 (sampleOptions (7/10))
      (.ok (sampleResponse ["d"] [1/10])) 123 (by decide)⟩,
   C7_no_type_check.2.2 (sampleOptions (7/10))
      (.ok (sampleResponse ["d"] [1/10])) PyVal.pyNone⟩

/-- C8: whenever retrieve yields the empty list, retrieve_and_combine
returns exactly the all-empty combined shape and retrieve_and_generate
exactly the all-empty generated shape, for the same query. -/
theorem C8_empty_propagation :
    ∀ (opts : ChromaDBRetrieverOptions) (backend : Except String QueryResult)
      (text : String),
      (retrieve opts backend text).1 = [] →
      retrieve_and_combine_results opts backend text =
        { combined_content := "", sources := [], total_sources := 0 }
      ∧ retrieve_and_generate opts backend text =
        { generated_content := "", summary := "", sources := [],
          total_sources := 0 } := by
  intro opts backend text h
  have hc : retrieve_and_combine_results opts backend text =
      { combined_content := "", sources := [], total_sources := 0 } := by
    unfold retrieve_and_combine_results
    rw [h]
    rfl
  refine ⟨hc, ?_⟩
  unfold retrieve_and_generate
  rw [hc]
  rfl

/-- Witness for C8_empty_propagation: the empty query yields an empty
retrieve result, and both derived views collapse to their empty shapes. -/
theorem C8_empty_propagation_witness :
    (retrieve (sampleOptions (7/10))
        (.ok (sampleResponse ["d"] [0])) "").1 = []
    ∧ retrieve_and_combine_results (sampleOptions (7/10))
        (.ok (sampleResponse ["d"] [0])) "" =
      { combined_content := "", sources := [], total_sources := 0 }
    ∧ retrieve_and_generate (sampleOptions (7/10))
        (.ok (sampleResponse ["d"] [0])) "" =
      { generated_content := "", summary := "", sources := [],
        total_sources := 0 } := by
  have h := C8_empty_propagation (sampleOptions (7/10))
    (.ok (sampleResponse ["d"] [0])) "" rfl
  exact ⟨rfl, h.1, h.2⟩

lemma combine_of_ne_nil (opts : ChromaDBRetrieverOptions)
    (backend : Except String QueryResult) (text : String)
    (h : (retrieve opts backend text).1 ≠ []) :
    retrieve_and_combine_results opts backend text =
      { combined_content := String.intercalate "\n\n---\n\n"
          ((sortDesc (retrieve opts backend text).1).enum.map fun p =>
            "Document " ++ toString (p.1 + 1) ++ ":\n" ++ p.2.content),
        sources := (sortDesc (retrieve opts backend text).1).map fun doc =>
          { metadata := doc.metadata,
            similarity_score := doc.similarity_score,
            content_preview := contentPreview doc.content },
        total_sources := (sortDesc (retrieve opts backend text).1).length } := by
  unfold retrieve_and_combine_results
  have hB : (retrieve opts backend text).1.isEmpty = false := by
    cases hE : (retrieve opts backend text).1.isEmpty
    · rfl
    · exact absurd (List.isEmpty_iff.mp hE) h
  simp only [hB, Bool.false_eq_true, if_false]

/-- C4: on a non-empty retrieve result, retrieve_and_combine_results
sorts the documents by similarity_score descending - provably sorted,
and stable: for every similarity value the sublist of documents carrying
it keeps its original relative order; combined_content is the sorted
documents' contents, each prefixed with its 1-based "Document N:" label,
joined by the separator blank line, "---", blank line; sources lists, in
the same sorted order, each document's metadata, similarity_score and
content_preview (first 100 characters, with a "..." marker exactly when
the content is longer than 100 characters); and total_sources is the
number of documents that passed the threshold in retrieve. -/
theorem C4_combine_sorted_shape :
    ∀ (opts : ChromaDBRetrieverOptions) (backend : Except String QueryResult)
      (text : String),
      (retrieve opts backend text).1 ≠ [] →
      ((sortDesc (retrieve opts backend text).1).Pairwise
          fun a b => b.similarity_score ≤ a.similarity_score)
      ∧ (∀ q : ℚ,
          (sortDesc (retrieve opts backend text).1).filter
              (fun d => d.similarity_score == q) =
            ((retrieve opts backend text).1).filter
              (fun d => d.similarity_score == q))
      ∧ (retrieve_and_combine_results opts backend text).combined_content =
          String.intercalate "\n\n---\n\n"
            ((sortDesc (retrieve opts backend text).1).enum.map fun p =>
              "Document " ++ toString (p.1 + 1) ++ ":\n" ++ p.2.content)
      ∧ (retrieve_and_combine_results opts backend text).sources =
          ((sortDesc (retrieve opts backend text).1).map fun doc =>
            ({ metadata := doc.metadata,
               similarity_score := doc.similarity_score,
               content_preview := if doc.content.length > 100 then
                   doc.content.take 100 ++ "..."
                 else doc.content } : SourceEntry))
      ∧ (retrieve_and_combine_results opts backend text).total_sources =
          ((retrieve opts backend text).1).length := by
  intro opts backend text h
  have hc := combine_of_ne_nil opts backend text h
  refine ⟨sortDesc_sorted _, fun q => filter_sortDesc _ q, ?_, ?_, ?_⟩
  · rw [hc]
  · rw [hc]
    simp only [contentPreview]
  · rw [hc]
    exact length_sortDesc _

/-- Witness for C4_combine_sorted_shape: two hits arriving in ascending
similarity order (0.6 then 0.8) are combined in descending order. -/
theorem C4_combine_sorted_shape_witness :
    (retrieve (sampleOptions (1/2))
        (.ok (sampleResponse ["alpha", "beta"] [2/5, 1/5])) "query").1 ≠ []
    ∧ retrieve_and_combine_results (sampleOptions (1/2))
        (.ok (sampleResponse ["alpha", "beta"] [2/5, 1/5])) "query" =
      { combined_content :=
          "Document 1:\nbeta\n\n---\n\nDocument 2:\nalpha",
        sources :=
          [({ metadata := [], similarity_score := 4/5, content_preview := "beta" } : SourceEntry),
           ({ metadata := [], similarity_score := 3/5, content_preview := "alpha" } : SourceEntry)],
        total_sources := 2 }
    ∧ (retrieve_and_combine_results (sampleOptions (1/2))
        (.ok (sampleResponse ["alpha", "beta"] [2/5, 1/5])) "query").total_sources =
      ((retrieve (sampleOptions (1/2))
        (.ok (sampleResponse ["alpha", "beta"] [2/5, 1/5])) "query").1).length := by
  have hg : ("query".data.all Char.isWhitespace) = false := by decide
  have he : (retrieve (sampleOptions (1/2))
      (.ok (sampleResponse ["alpha", "beta"] [2/5, 1/5])) "query").1 =
      [{ content := "alpha", metadata := [], similarity_score := 3/5 },
       { content := "beta", metadata := [], similarity_score := 4/5 }] := by
    norm_num [retrieve, hg, sampleOptions, sampleResponse, formatResults,
      runLoop, hitAt, min_def, List.range_succ, round4, roundHalfEven]
  have hne : (retrieve (sampleOptions (1/2))
      (.ok (sampleResponse ["alpha", "beta"] [2/5, 1/5])) "query").1 ≠ [] := by
    rw [he]
    simp
  have hsort : sortDesc
      [{ content := "alpha", metadata := [], similarity_score := 3/5 },
       { content := "beta", metadata := [], similarity_score := 4/5 }] =
      [{ content := "beta", metadata := [], similarity_score := 4/5 },
       { content := "alpha", metadata := [], similarity_score := 3/5 }] := by
    norm_num [sortDesc, insertDesc]
  have hc := combine_of_ne_nil (sampleOptions (1/2))
    (.ok (sampleResponse ["alpha", "beta"] [2/5, 1/5])) "query" hne
  rw [he, hsort] at hc
  refine ⟨hne, ?_, (C4_combine_sorted_shape (sampleOptions (1/2))
    (.ok (sampleResponse ["alpha", "beta"] [2/5, 1/5])) "query" hne).2.2.2.2⟩
  rw [hc]
  simp only [contentPreview]
  norm_num [List.enum, String.intercalate]
  decide

/-- C9: on a non-empty combined content, retrieve_and_generate returns the
combined content verbatim as generated_content, passes sources and
total_sources through unchanged, and derives summary from the first
(highest-similarity) source's content_preview when sources is non-empty,
falling back to the first blank-line-delimited paragraph of the
generated content otherwise; in both cases the summary is truncated to
197 characters plus "..." when longer than 200 characters. -/
theorem C9_generate_shape :
    ∀ (opts : ChromaDBRetrieverOptions) (backend : Except String QueryResult)
      (text : String),
      (retrieve_and_combine_results opts backend text).combined_content ≠ "" →
      (retrieve_and_generate opts backend text).generated_content =
          (retrieve_and_combine_results opts backend text).combined_content
      ∧ (retrieve_and_generate opts backend text).sources =
          (retrieve_and_combine_results opts backend text).sources
      ∧ (retrieve_and_generate opts backend text).total_sources =
          (retrieve_and_combine_results opts backend text).total_sources
      ∧ (∀ (s : SourceEntry) (rest : List SourceEntry),
          (retrieve_and_combine_results opts backend text).sources = s :: rest →
          (retrieve_and_generate opts backend text).summary =
            (if s.content_preview.length > 200 then
                s.content_preview.take 197 ++ "..."
              else s.content_preview))
      ∧ ((retrieve_and_combine_results opts backend text).sources = [] →
          (retrieve_and_generate opts backend text).summary =
            (if (((retrieve_and_combine_results opts backend
                    text).combined_content.splitOn "\n\n").headD "").length > 200
              then (((retrieve_and_combine_results opts backend
                    text).combined_content.splitOn "\n\n").headD "").take 197 ++ "..."
              else ((retrieve_and_combine_results opts backend
                    text).combined_content.splitOn "\n\n").headD "")) := by
  intro opts backend text h
  have hgen : retrieve_and_generate opts backend text =
      { generated_content :=
          (retrieve_and_combine_results opts backend text).combined_content,
        summary :=
          (let summary0 :=
            match (retrieve_and_combine_results opts backend text).sources with
            | s :: _ => s.content_preview
            | [] => ((retrieve_and_combine_results opts backend
                text).combined_content.splitOn "\n\n").headD ""
          if summary0.length > 200 then summary0.take 197 ++ "..."
          else summary0),
        sources := (retrieve_and_combine_results opts backend text).sources,
        total_sources :=
          (retrieve_and_combine_results opts backend text).total_sources } := by
    unfold retrieve_and_generate
    simp only []
    rw [if_neg h]
  refine ⟨by rw [hgen], by rw [hgen], by rw [hgen], ?_, ?_⟩
  · intro s rest hs
    rw [hgen]
    simp only [hs]
  · intro hs
    rw [hgen]
    simp only [hs]

/-- Witness for C9_generate_shape on a one-document run: the generated
content is the combined content and the summary is the first source's
preview. -/
theorem C9_generate_shape_witness :
    (retrieve_and_combine_results (sampleOptions (1/2))
        (.ok (sampleResponse ["hello"] [1/10])) "query").combined_content ≠ ""
    ∧ (retrieve_and_generate (sampleOptions (1/2))
        (.ok (sampleResponse ["hello"] [1/10])) "query").generated_content =
      (retrieve_and_combine_results (sampleOptions (1/2))
        (.ok (sampleResponse ["hello"] [1/10])) "query").combined_content
    ∧ (retrieve_and_generate (sampleOptions (1/2))
        (.ok (sampleResponse ["hello"] [1/10])) "query").summary = "hello" := by
  have hg : ("query".data.all Char.isWhitespace) = false := by decide
  have he : (retrieve (sampleOptions (1/2))
      (.ok (sampleResponse ["hello"] [1/10])) "query").1 =
      [{ content := "hello", metadata := [], similarity_score := 9/10 }] := by
    norm_num [retrieve, hg, sampleOptions, sampleResponse, formatResults,
      runLoop, hitAt, min_def, List.range_succ, round4, roundHalfEven]
  have hne : (retrieve (sampleOptions (1/2))
      (.ok (sampleResponse ["hello"] [1/10])) "query").1 ≠ [] := by
    rw [he]
    simp
  have hc := combine_of_ne_nil (sampleOptions (1/2))
    (.ok (sampleResponse ["hello"] [1/10])) "query" hne
  rw [he] at hc
  have hcomb : retrieve_and_combine_results (sampleOptions (1/2))
      (.ok (sampleResponse ["hello"] [1/10])) "query" =
      { combined_content := "Document 1:\nhello",
        sources := [({ metadata := [], similarity_score := 9/10,
                       content_preview := "hello" } : SourceEntry)],
        total_sources := 1 } := by
    rw [hc]
    simp only [sortDesc, insertDesc, contentPreview]
    norm_num [List.enum, String.intercalate]
    decide
  have hne2 : (retrieve_and_combine_results (sampleOptions (1/2))
      (.ok (sampleResponse ["hello"] [1/10])) "query").combined_content ≠ "" := by
    rw [hcomb]
    decide
  have hmain := C9_generate_shape (sampleOptions (1/2))
    (.ok (sampleResponse ["hello"] [1/10])) "query" hne2
  refine ⟨hne2, hmain.1, ?_⟩
  have hsum := hmain.2.2.2.1
    ({ metadata := [], similarity_score := 9/10,
       content_preview := "hello" } : SourceEntry) []
    (by rw [hcomb])
  rw [hsum]
  decide
